import Mathlib

/-!
Verification development for the Nomad Safe Spots "Spot Catalog Engine"
(source: `src/src/App.jsx`, current revision, and `src/unnamed/part_000`,
a legacy revision of the same component).

JavaScript numbers that the engine only parses, clamps and copies are
modelled as `Int`; coordinates, ratings and averages are modelled as exact
rationals (`ℚ`) except inside the haversine distance function, which is
modelled over the real numbers.  Fallible operations return `Option` /
`Except`.  External collaborators (the Supabase store, the object store)
are modelled as explicit oracles passed to the handlers, and every network
call a handler makes is recorded in an explicit effect trace.
-/

/-! ## JavaScript primitive models -/

/-- Model of the source's `clamp(num, min, max)` =
`Number.isNaN(num) ? min : Math.min(Math.max(num, min), max)`.
`none` plays the role of `NaN`. -/
def clamp (num : Option Int) (lo hi : Int) : Int :=
  match num with
  | none => lo
  | some n => min (max n lo) hi

/-- Leading decimal digits of a character list, as a number (`none` when
there is no leading digit). -/
def leadingDigits : List Char → Option Nat → Option Nat
  | [], acc => acc
  | c :: cs, acc =>
    if c.isDigit then
      leadingDigits cs (some ((acc.getD 0) * 10 + (c.toNat - '0'.toNat)))
    else
      acc

/-- Model of JavaScript `parseInt(s, 10)`: skip leading whitespace, read an
optional sign and then the longest leading digit run; `none` models `NaN`
(no digits at all). -/
def parseIntJS (s : String) : Option Int :=
  match s.data.dropWhile Char.isWhitespace with
  | '-' :: cs => (leadingDigits cs none).map (fun n => -(n : Int))
  | '+' :: cs => (leadingDigits cs none).map (fun n => (n : Int))
  | cs => (leadingDigits cs none).map (fun n => (n : Int))

/-- Model of the JavaScript idiom `parseInt(s, 10) || 0`: `NaN` (and `0`
itself) becomes `0`. -/
def parseIntOrZero (s : String) : Int :=
  (parseIntJS s).getD 0

/-- Strip leading and trailing whitespace from a character list. -/
def trimChars (cs : List Char) : List Char :=
  ((cs.dropWhile Char.isWhitespace).reverse.dropWhile
    Char.isWhitespace).reverse

/-- Model of JavaScript `s.trim()`. -/
def jsTrim (s : String) : String :=
  String.mk (trimChars s.data)

/-- Split a character list at every comma, keeping empty segments
(JavaScript `s.split(",")`). -/
def splitCommaChars : List Char → List (List Char)
  | [] => [[]]
  | c :: rest =>
    match splitCommaChars rest with
    | [] => [[]]
    | seg :: segs =>
      if c = ',' then [] :: seg :: segs else (c :: seg) :: segs

/-- Model of JavaScript `s.split(",")`. -/
def jsSplitComma (s : String) : List String :=
  (splitCommaChars s.data).map String.mk

/-- Model of the source's comma-split idiom
`s.split(",").map((u) => u.trim()).filter(Boolean)`. -/
def csvSplit (s : String) : List String :=
  ((jsSplitComma s).map jsTrim).filter (fun t => t ≠ "")

/-! ## JavaScript values and `JSON.parse`

The persisted `photo_urls` column is schema-variant (array, JSON text,
comma-joined text, null), so raw field contents are modelled by `JSVal`.
`JSON.parse` is modelled for the JSON subset consisting of `null`,
booleans, integer numerals, escape-free strings and (nested) arrays;
parsing anything outside the subset fails, which in the normalizer feeds
the same comma-split fallback branch as a real parse error. -/

inductive JSVal where
  | null
  | bool (b : Bool)
  | num (n : Int)
  | str (s : String)
  | arr (xs : List JSVal)

/-- JavaScript falsiness for the modelled values
(`null`, `false`, `0`, `""`). -/
def jsFalsy : JSVal → Bool
  | .null => true
  | .bool b => !b
  | .num n => n == 0
  | .str s => s == ""
  | .arr _ => false

/-- JSON whitespace. -/
def isJsonWs (c : Char) : Bool :=
  c = ' ' || c = '\t' || c = '\n' || c = '\r'

/-- Drop leading JSON whitespace. -/
def skipWs (cs : List Char) : List Char :=
  cs.dropWhile isJsonWs

/-- Strip an expected literal token from the front of the input. -/
def stripToken : List Char → List Char → Option (List Char)
  | [], cs => some cs
  | _, [] => none
  | t :: ts, c :: cs => if c = t then stripToken ts cs else none

/-- Parse the body of a JSON string literal after the opening quote
(escape-free subset: a backslash makes the parse fail). -/
def parseStrBody : List Char → Option (List Char × List Char)
  | [] => none
  | c :: cs =>
    if c = '"' then some ([], cs)
    else if c = '\\' then none
    else
      match parseStrBody cs with
      | some (body, rest) => some (c :: body, rest)
      | none => none

/-- Parse a JSON integer numeral (optional minus sign, digit run). -/
def parseIntLit (cs : List Char) : Option (Int × List Char) :=
  match cs with
  | '-' :: rest =>
    match leadingDigits rest none with
    | some n => some (-(n : Int), rest.dropWhile Char.isDigit)
    | none => none
  | _ =>
    match leadingDigits cs none with
    | some n => some ((n : Int), cs.dropWhile Char.isDigit)
    | none => none

/-- Parse the elements of a non-empty JSON array, given a parser `pv` for
single values (fuelled). -/
def parseItems (pv : List Char → Option (JSVal × List Char)) :
    Nat → List Char → Option (List JSVal × List Char)
  | 0, _ => none
  | fuel + 1, cs =>
    match pv (skipWs cs) with
    | none => none
    | some (v, rest) =>
      match skipWs rest with
      | ',' :: rest2 =>
        match parseItems pv fuel rest2 with
        | some (vs, r) => some (v :: vs, r)
        | none => none
      | ']' :: rest2 => some ([v], rest2)
      | _ => none

/-- Fuelled parser for a single JSON value of the modelled subset. -/
def parseVal : Nat → List Char → Option (JSVal × List Char)
  | 0, _ => none
  | fuel + 1, cs =>
    match skipWs cs with
    | [] => none
    | c :: rest =>
      if c = 'n' then
        (stripToken ['u', 'l', 'l'] rest).map (fun r => (JSVal.null, r))
      else if c = 't' then
        (stripToken ['r', 'u', 'e'] rest).map (fun r => (JSVal.bool true, r))
      else if c = 'f' then
        (stripToken ['a', 'l', 's', 'e'] rest).map
          (fun r => (JSVal.bool false, r))
      else if c = '"' then
        (parseStrBody rest).map
          (fun p => (JSVal.str (String.mk p.1), p.2))
      else if c = '[' then
        match skipWs rest with
        | ']' :: rest2 => some (JSVal.arr [], rest2)
        | _ =>
          match parseItems (parseVal fuel) (fuel + 1) rest with
          | some (vs, r) => some (JSVal.arr vs, r)
          | none => none
      else
        (parseIntLit (c :: rest)).map (fun p => (JSVal.num p.1, p.2))

/-- Model of `JSON.parse` on the subset described above: parse one value
and require only trailing whitespace after it. -/
def jsonParse (s : String) : Option JSVal :=
  match parseVal (s.data.length + 2) s.data with
  | some (v, rest) => if skipWs rest = [] then some v else none
  | none => none

/-! ## Record Normalizer (`loadData`, `src/src/App.jsx` lines 228-267)

The load-time normalization maps each raw spot record to
`{ ...spot, photo_urls }` where only `photo_urls` is recomputed. -/

/-- Normalization of the raw `photo_urls` field, following the source:
falsy values become `[]`; arrays are kept as-is; a non-blank string is
JSON-parsed, and if the parse yields an array that array is used,
otherwise (including parse errors) the string is comma-split, trimmed and
filtered; any other value becomes `[]`. -/
def normalizePhotoUrls (v : JSVal) : JSVal :=
  if jsFalsy v then .arr []
  else
    match v with
    | .arr xs => .arr xs
    | .str s =>
      if (jsTrim s).length > 0 then
        match jsonParse s with
        | some (.arr xs) => .arr xs
        | some _ => .arr ((csvSplit s).map JSVal.str)
        | none => .arr ((csvSplit s).map JSVal.str)
      else .arr []
    | _ => .arr []

/-- A raw persisted spot record as delivered by the store, before
normalization.  The schema-variant fields (`photo_urls`, and the numeric
fields whose raw contents the claims discuss) are modelled as `JSVal`. -/
structure RawSpot where
  id : Nat
  name : String
  description : String
  lat : ℚ
  lng : ℚ
  overnight_allowed : Bool
  has_bathroom : Bool
  cell_signal : JSVal
  noise_level : String
  safety_rating : JSVal
  spot_type : String
  created_at : String
  photo_urls : JSVal

/-- The per-record normalization performed by `loadData`:
`{ ...spot, photo_urls: normalized }` — every field other than
`photo_urls` is spread through unchanged. -/
def normalizeSpot (raw : RawSpot) : RawSpot :=
  { raw with photo_urls := normalizePhotoUrls raw.photo_urls }

/-! ## Ranking Pipeline (`spotsWithStats` / `filteredSpots`,
`src/src/App.jsx` lines 338-411)

The pipeline is generic in the numeric type `α` of coordinates and
distances (a linear order); the geodesic distance function is passed in as
a parameter, mirroring the call to `haversineDistanceKm`.  Review ratings
and their averages are exact rationals. -/

/-- A coordinate pair `{ lat, lng }`. -/
structure Coordinate (α : Type) where
  lat : α
  lng : α
  deriving DecidableEq

/-- A review row of the in-memory review table. -/
structure ReviewRow where
  id : Nat
  spot_id : Option Nat
  rating : Option Int
  comment : String
  nickname : Option String
  created_at : String
  deriving DecidableEq

/-- A normalized spot row of the in-memory spot table, with the canonical
field types. -/
structure RankSpot (α : Type) where
  id : Nat
  name : String
  description : String
  lat : α
  lng : α
  overnight_allowed : Bool
  has_bathroom : Bool
  cell_signal : Int
  noise_level : String
  safety_rating : Int
  spot_type : String
  created_at : String
  photo_urls : List String
  deriving DecidableEq

/-- A spot enriched with its review aggregates and its distance from the
viewer (`{ ...spot, avgRating, reviewCount, distanceKm }`). -/
structure EnrichedSpot (α : Type) where
  spot : RankSpot α
  avgRating : Option ℚ
  reviewCount : Nat
  distanceKm : Option α
  deriving DecidableEq

/-- `reviewsBySpotId.get(sid) ?? []`: the reviews of one spot, in table
order.  Rows whose `spot_id` is falsy (`null` or `0`) are never indexed
(`if (!review.spot_id) continue`). -/
def reviewsFor (reviews : List ReviewRow) (sid : Nat) : List ReviewRow :=
  if sid = 0 then []
  else reviews.filter (fun r => r.spot_id == some sid)

/-- The enrichment step of `spotsWithStats`: average rating (`null` when
the spot has no reviews), review count, and distance from the viewer
(`null` when no viewer location is known). -/
def enrichSpot {α : Type} (reviews : List ReviewRow)
    (userLocation : Option (Coordinate α))
    (dist : Coordinate α → Coordinate α → α) (spot : RankSpot α) :
    EnrichedSpot α :=
  let revs := reviewsFor reviews spot.id
  let avgRating : Option ℚ :=
    if revs.length > 0 then
      some (Rat.divInt ((revs.map (fun r => r.rating.getD 0)).sum)
        (revs.length : Int))
    else none
  let distanceKm : Option α :=
    match userLocation with
    | some loc => some (dist loc ⟨spot.lat, spot.lng⟩)
    | none => none
  ⟨spot, avgRating, revs.length, distanceKm⟩

/-- Final comparator key: `(a.name || "").localeCompare(b.name || "")`,
with the locale comparison modelled as codepoint string comparison. -/
def compareByName {α : Type} (a b : EnrichedSpot α) : Ordering :=
  compare a.spot.name b.spot.name

/-- Third comparator key: when both average ratings are known and
different, the higher average sorts first; otherwise fall through to the
name key. -/
def compareByRating {α : Type} (a b : EnrichedSpot α) : Ordering :=
  match a.avgRating, b.avgRating with
  | some ra, some rb =>
    if rb ≠ ra then (if rb < ra then .lt else .gt) else compareByName a b
  | _, _ => compareByName a b

/-- Second comparator key: when both distances are known and different,
the smaller distance sorts first; otherwise fall through to the rating
key. -/
def compareByDistance {α : Type} [LinearOrder α] (a b : EnrichedSpot α) :
    Ordering :=
  match a.distanceKm, b.distanceKm with
  | some da, some db =>
    if da ≠ db then (if da < db then .lt else .gt) else compareByRating a b
  | _, _ => compareByRating a b

/-- The multi-key comparator of `spotsWithStats`'s `.sort`, as an
`Ordering` (the source returns a number; only its sign is consumed).
The first key puts favorite spots before non-favorite spots. -/
def compareSpots {α : Type} [LinearOrder α] (favoriteIds : List Nat)
    (a b : EnrichedSpot α) : Ordering :=
  let aFav := favoriteIds.contains a.spot.id
  let bFav := favoriteIds.contains b.spot.id
  if aFav ≠ bFav then (if aFav then .lt else .gt)
  else compareByDistance a b

/-- Insert into a sorted list, keeping the new element after every element
it does not strictly precede. -/
def stableInsert {β : Type} (le : β → β → Bool) (x : β) :
    List β → List β
  | [] => [x]
  | y :: ys => if le x y then x :: y :: ys else y :: stableInsert le x ys

/-- `Array.prototype.sort` modelled as a stable insertion sort: for a
consistent comparator this is the unique stable sort the ECMAScript
specification mandates. -/
def stableSort {β : Type} (le : β → β → Bool) : List β → List β
  | [] => []
  | x :: xs => stableInsert le x (stableSort le xs)

/-- The boolean "may precede" relation fed to the sort: `cmp(a,b) <= 0`. -/
def leSpots {α : Type} [LinearOrder α] (favoriteIds : List Nat)
    (a b : EnrichedSpot α) : Bool :=
  compareSpots favoriteIds a b != Ordering.gt

/-- `spotsWithStats`: every spot of the table is enriched, then the whole
enriched list is sorted. -/
def spotsWithStats {α : Type} [LinearOrder α] (spots : List (RankSpot α))
    (reviews : List ReviewRow) (userLocation : Option (Coordinate α))
    (favoriteIds : List Nat) (dist : Coordinate α → Coordinate α → α) :
    List (EnrichedSpot α) :=
  stableSort (leSpots favoriteIds)
    (spots.map (enrichSpot reviews userLocation dist))

/-- The three active filter toggles. -/
structure Filters where
  filterType : String
  filterOvernightOnly : Bool
  filterFavoritesOnly : Bool
  deriving DecidableEq

/-- The filter predicate of `filteredSpots`, on an enriched spot. -/
def passesFilters {α : Type} (f : Filters) (favoriteIds : List Nat)
    (e : EnrichedSpot α) : Bool :=
  if f.filterType != "any" && e.spot.spot_type != f.filterType then false
  else if f.filterOvernightOnly && !e.spot.overnight_allowed then false
  else if f.filterFavoritesOnly && !(favoriteIds.contains e.spot.id) then
    false
  else true

/-- The same predicate on a raw (pre-enrichment) spot row; it reads only
fields the enrichment copies through. -/
def passesFiltersRaw {α : Type} (f : Filters) (favoriteIds : List Nat)
    (s : RankSpot α) : Bool :=
  if f.filterType != "any" && s.spot_type != f.filterType then false
  else if f.filterOvernightOnly && !s.overnight_allowed then false
  else if f.filterFavoritesOnly && !(favoriteIds.contains s.id) then false
  else true

/-- `filteredSpots`: the rendered list is `spotsWithStats` (enrich, then
sort) filtered by the conjunction of the active predicates. -/
def filteredSpots {α : Type} [LinearOrder α] (spots : List (RankSpot α))
    (reviews : List ReviewRow) (userLocation : Option (Coordinate α))
    (favoriteIds : List Nat) (dist : Coordinate α → Coordinate α → α)
    (f : Filters) : List (EnrichedSpot α) :=
  (spotsWithStats spots reviews userLocation favoriteIds dist).filter
    (passesFilters f favoriteIds)

/-- The pipeline in the order claim C4 states it: first filter the spot
table, then enrich the survivors, then sort.  This definition follows the
claim's words, for comparison with `filteredSpots`. -/
def filterFirstPipeline {α : Type} [LinearOrder α]
    (spots : List (RankSpot α)) (reviews : List ReviewRow)
    (userLocation : Option (Coordinate α)) (favoriteIds : List Nat)
    (dist : Coordinate α → Coordinate α → α) (f : Filters) :
    List (EnrichedSpot α) :=
  stableSort (leSpots favoriteIds)
    ((spots.filter (passesFiltersRaw f favoriteIds)).map
      (enrichSpot reviews userLocation dist))

/-! ## Spot Edit Session (`handleSaveSpot`, `src/src/App.jsx` lines
480-622, and the legacy revision `src/unnamed/part_000` lines 348-420)

The handler is modelled as a pure function from the pre-state and a store
oracle to the post-state together with an explicit trace of the network
calls it issued.  The oracle answers the `n`-th file upload, resolves
public URLs, and answers the single record write. -/

/-- A staged local photo file (only its name is consumed). -/
structure JsFile where
  name : String
  deriving DecidableEq

/-- The spot form fields; numeric inputs arrive as strings. -/
structure SpotForm where
  name : String
  description : String
  overnightAllowed : Bool
  hasBathroom : Bool
  cellSignal : String
  safetyRating : String
  noiseLevel : String
  spotType : String
  photoUrls : String
  deriving DecidableEq

/-- `initialSpotForm` from the source. -/
def initialSpotForm : SpotForm where
  name := ""
  description := ""
  overnightAllowed := false
  hasBathroom := false
  cellSignal := "3"
  safetyRating := "4"
  noiseLevel := "quiet"
  spotType := "forest_road"
  photoUrls := ""

/-- The payload sent to the store by a spot insert/update. -/
structure SpotPayload where
  name : String
  description : String
  lat : ℚ
  lng : ℚ
  overnight_allowed : Bool
  has_bathroom : Bool
  cell_signal : Int
  safety_rating : Int
  noise_level : String
  spot_type : String
  photo_urls : List String
  deriving DecidableEq

/-- The component state touched by the add/edit workflow. -/
structure AppState where
  spots : List (RankSpot ℚ)
  adding : Bool
  editingSpotId : Option Nat
  pendingLocation : Option (Coordinate ℚ)
  spotForm : SpotForm
  spotPhotoFiles : List JsFile
  uploadingPhotos : Bool
  savingSpot : Bool
  selectedSpotId : Option Nat
  errorMsg : String
  status : String
  deriving DecidableEq

/-- Result of one `supabase.storage.upload` call: either an error, or a
response whose `data.path` may be present. -/
inductive UploadRes where
  | err (msg : String)
  | ok (path : Option String)
  deriving DecidableEq

/-- The external store, as an oracle: the answer to the `n`-th upload
call, the public URL resolved for a storage path, and the answer to the
record insert/update. -/
structure StoreOracle where
  upload : Nat → UploadRes
  publicUrl : String → String
  writeRes : Except String (RankSpot ℚ)

/-- The network calls a submission issued: the names of the files sent
(in call order) and the record writes `(editing target, payload)`. -/
structure SaveTrace where
  uploads : List String
  writes : List (Option Nat × SpotPayload)
  deriving DecidableEq

/-- The sequential upload loop: files are sent one at a time, in staging
order; the first error short-circuits.  On success the accumulated public
URLs (pushed only when `data.path` and the resolved URL are truthy) are
returned; either way the names of the files attempted so far are
returned. -/
def uploadPhase (o : StoreOracle) : Nat → List String → List String →
    List JsFile → Except (String × List String) (List String × List String)
  | _, urls, trace, [] => .ok (urls, trace)
  | i, urls, trace, f :: fs =>
    match o.upload i with
    | .err m => .error (m, trace ++ [f.name])
    | .ok path? =>
      let urls' :=
        match path? with
        | some p =>
          let u := o.publicUrl p
          if u ≠ "" then urls ++ [u] else urls
        | none => urls
      uploadPhase o (i + 1) urls' (trace ++ [f.name]) fs

/-- `safety_rating` as computed by the current submission path:
`clamp(parseInt(spotForm.safetyRating, 10) || 0, 1, 5)`. -/
def safetyRatingMain (s : String) : Int :=
  clamp (some (parseIntOrZero s)) 1 5

/-- `safety_rating` as computed by the legacy submission path:
`clamp(parseInt(spotForm.safetyRating, 10) || 0, 0, 5)`. -/
def safetyRatingLegacy (s : String) : Int :=
  clamp (some (parseIntOrZero s)) 0 5

/-- `cell_signal` as computed by both submission paths:
`clamp(parseInt(spotForm.cellSignal, 10) || 0, 0, 5)`. -/
def cellSignalOf (s : String) : Int :=
  clamp (some (parseIntOrZero s)) 0 5

/-- The current `handleSaveSpot`: validate locally, clamp the numeric
fields, parse manual photo URLs, upload staged files sequentially (first
failure aborts the submission, leaving `savingSpot` as it stood), then
insert or update the record and, on success, write it back into the local
spot table and clear the composing fields. -/
def handleSaveSpot (st : AppState) (o : StoreOracle) :
    AppState × SaveTrace :=
  let st0 := { st with errorMsg := "" }
  match st0.pendingLocation with
  | none =>
    ({ st0 with errorMsg := "Tap on the map to choose a location." },
     ⟨[], []⟩)
  | some loc =>
    if jsTrim st0.spotForm.name = "" then
      ({ st0 with errorMsg := "Please give this spot a name." }, ⟨[], []⟩)
    else
      let st1 := { st0 with savingSpot := true }
      let cell_signal := cellSignalOf st1.spotForm.cellSignal
      let safety_rating := safetyRatingMain st1.spotForm.safetyRating
      let photo_urls :=
        if st1.spotForm.photoUrls ≠ "" then csvSplit st1.spotForm.photoUrls
        else []
      match uploadPhase o 0 [] [] st1.spotPhotoFiles with
      | .error (m, trace) =>
        ({ st1 with
            uploadingPhotos := false,
            errorMsg := "Failed to upload one of the photos: " ++ m },
         ⟨trace, []⟩)
      | .ok (uploadedUrls, trace) =>
        let uploadingAfter :=
          if st1.spotPhotoFiles.length > 0 then false
          else st1.uploadingPhotos
        let payload : SpotPayload :=
          { name := jsTrim st1.spotForm.name
            description := jsTrim st1.spotForm.description
            lat := loc.lat
            lng := loc.lng
            overnight_allowed := st1.spotForm.overnightAllowed
            has_bathroom := st1.spotForm.hasBathroom
            cell_signal := cell_signal
            safety_rating := safety_rating
            noise_level := st1.spotForm.noiseLevel
            spot_type := st1.spotForm.spotType
            photo_urls := photo_urls ++ uploadedUrls }
        match o.writeRes with
        | .error m =>
          ({ st1 with
              uploadingPhotos := uploadingAfter,
              errorMsg := m,
              savingSpot := false },
           ⟨trace, [(st1.editingSpotId, payload)]⟩)
        | .ok saved =>
          let newSpots :=
            match st1.spots.findIdx? (fun s => s.id == saved.id) with
            | none => saved :: st1.spots
            | some idx => st1.spots.set idx saved
          ({ st1 with
              spots := newSpots
              adding := false
              editingSpotId := none
              pendingLocation := none
              spotForm := initialSpotForm
              spotPhotoFiles := []
              uploadingPhotos := uploadingAfter
              errorMsg := ""
              status :=
                if st1.editingSpotId.isSome then "Spot updated successfully."
                else "Spot added!"
              savingSpot := false },
           ⟨trace, [(st1.editingSpotId, payload)]⟩)

/-- The component state touched by the legacy add workflow
(`src/unnamed/part_000`; create only, no photo files, no edit mode). -/
structure LegacyState where
  spots : List (RankSpot ℚ)
  adding : Bool
  pendingLocation : Option (Coordinate ℚ)
  spotForm : SpotForm
  selectedSpotId : Option Nat
  errorMsg : String
  savingSpot : Bool
  deriving DecidableEq

/-- The legacy `handleSaveSpot`: validate, clamp (safety into 0-5), parse
manual URLs, insert, and on success append the returned record to the
table and select it. -/
def handleSaveSpotLegacy (st : LegacyState)
    (o : Except String (RankSpot ℚ)) : LegacyState × List SpotPayload :=
  let st0 := { st with errorMsg := "" }
  if !st0.adding then
    ({ st0 with errorMsg := "Tap “Add Spot” first." }, [])
  else
    match st0.pendingLocation with
    | none =>
      ({ st0 with errorMsg := "Tap on the map to choose a location." }, [])
    | some loc =>
      if jsTrim st0.spotForm.name = "" then
        ({ st0 with errorMsg := "Name is required." }, [])
      else
        let cell_signal := cellSignalOf st0.spotForm.cellSignal
        let safety_rating := safetyRatingLegacy st0.spotForm.safetyRating
        let noise_level :=
          if st0.spotForm.noiseLevel ≠ "" then st0.spotForm.noiseLevel
          else "unknown"
        let spot_type :=
          if st0.spotForm.spotType ≠ "" then st0.spotForm.spotType
          else "other"
        let photo_urls :=
          if jsTrim st0.spotForm.photoUrls ≠ "" then
            csvSplit st0.spotForm.photoUrls
          else []
        let payload : SpotPayload :=
          { name := jsTrim st0.spotForm.name
            description := jsTrim st0.spotForm.description
            lat := loc.lat
            lng := loc.lng
            overnight_allowed := st0.spotForm.overnightAllowed
            has_bathroom := st0.spotForm.hasBathroom
            cell_signal := cell_signal
            safety_rating := safety_rating
            noise_level := noise_level
            spot_type := spot_type
            photo_urls := photo_urls }
        match o with
        | .error m =>
          ({ st0 with
              errorMsg := "Failed to save spot: " ++ m,
              savingSpot := false },
           [payload])
        | .ok saved =>
          ({ st0 with
              spots := st0.spots ++ [saved]
              selectedSpotId := some saved.id
              adding := false
              pendingLocation := none
              spotForm := initialSpotForm
              errorMsg := ""
              savingSpot := false },
           [payload])

/-! ## Review Submission (`handleAddReview`, `src/src/App.jsx` lines
624-673) -/

/-- The review form fields. -/
structure ReviewForm where
  rating : String
  comment : String
  nickname : String
  deriving DecidableEq

/-- `initialReviewForm` from the source. -/
def initialReviewForm : ReviewForm where
  rating := "5"
  comment := ""
  nickname := ""

/-- The payload sent to the store by a review insert. -/
structure ReviewPayload where
  spot_id : Nat
  rating : Int
  comment : String
  nickname : Option String
  deriving DecidableEq

/-- The component state touched by review submission. -/
structure ReviewState where
  reviews : List ReviewRow
  reviewForm : ReviewForm
  reviewError : String
  savingReview : Bool
  deriving DecidableEq

/-- `handleAddReview`: validate (spot targeted, clamped rating truthy,
comment non-blank), then insert and on success prepend the returned row
and reset the form.  The effect list holds the review insert calls
issued. -/
def handleAddReview (selectedSpot : Option (RankSpot ℚ)) (st : ReviewState)
    (o : Except String ReviewRow) : ReviewState × List ReviewPayload :=
  let st0 := { st with reviewError := "" }
  match selectedSpot with
  | none => ({ st0 with reviewError := "Select a spot first." }, [])
  | some spot =>
    let rating := clamp (some (parseIntOrZero st0.reviewForm.rating)) 1 5
    if rating = 0 then
      ({ st0 with reviewError := "Rating 1–5 is required." }, [])
    else if jsTrim st0.reviewForm.comment = "" then
      ({ st0 with reviewError := "Please add a short comment." }, [])
    else
      let payload : ReviewPayload :=
        { spot_id := spot.id
          rating := rating
          comment := jsTrim st0.reviewForm.comment
          nickname :=
            if jsTrim st0.reviewForm.nickname ≠ "" then
              some (jsTrim st0.reviewForm.nickname)
            else none }
      match o with
      | .error m =>
        ({ st0 with reviewError := m, savingReview := false }, [payload])
      | .ok row =>
        ({ st0 with
            reviews := row :: st0.reviews
            reviewForm := initialReviewForm
            savingReview := false },
         [payload])

/-! ## Geodesic Distance Function (`haversineDistanceKm`, identical in
both revisions, lines 42-59)

Modelled over the real numbers; `Math.atan2` is modelled by `jsAtan2`. -/

/-- Model of `Math.atan2 y x` (standard quadrant-correcting arctangent;
`atan2 0 0 = 0`). -/
noncomputable def jsAtan2 (y x : ℝ) : ℝ :=
  if 0 < x then Real.arctan (y / x)
  else if x < 0 then
    if 0 ≤ y then Real.arctan (y / x) + Real.pi
    else Real.arctan (y / x) - Real.pi
  else
    if 0 < y then Real.pi / 2
    else if y < 0 then -(Real.pi / 2)
    else 0

/-- The haversine term
`sinDLat*sinDLat + cos(lat1)*cos(lat2)*sinDLng*sinDLng`. -/
noncomputable def havTerm (a b : Coordinate ℝ) : ℝ :=
  Real.sin ((b.lat - a.lat) * Real.pi / 180 / 2) *
      Real.sin ((b.lat - a.lat) * Real.pi / 180 / 2) +
    Real.cos (a.lat * Real.pi / 180) * Real.cos (b.lat * Real.pi / 180) *
      (Real.sin ((b.lng - a.lng) * Real.pi / 180 / 2) *
        Real.sin ((b.lng - a.lng) * Real.pi / 180 / 2))

/-- Great-circle distance in km between two present coordinate pairs:
`R * c` with `R = 6371` and `c = 2 * atan2(sqrt(h), sqrt(1-h))`. -/
noncomputable def haversineKm (a b : Coordinate ℝ) : ℝ :=
  6371 * (2 * jsAtan2 (Real.sqrt (havTerm a b)) (Real.sqrt (1 - havTerm a b)))

/-- `haversineDistanceKm(a, b)`: `null` when either argument is absent,
else the haversine distance. -/
noncomputable def haversineDistanceKm (a b : Option (Coordinate ℝ)) :
    Option ℝ :=
  match a, b with
  | some a, some b => some (haversineKm a b)
  | _, _ => none

/-! ## Concrete fixtures

Concrete records, states and oracles used to evaluate the definitions on
explicit inputs. -/

/-- A spot row with the given identity, name, category and overnight flag,
and neutral remaining fields. -/
def mkRank (id : Nat) (name ty : String) (overnight : Bool) : RankSpot ℚ where
  id := id
  name := name
  description := ""
  lat := 0
  lng := 0
  overnight_allowed := overnight
  has_bathroom := false
  cell_signal := 3
  noise_level := "quiet"
  safety_rating := 4
  spot_type := ty
  created_at := ""
  photo_urls := []

/-- A distance function over `ℚ` (its value is irrelevant to the runs it
appears in, which carry no viewer location). -/
def qDist : Coordinate ℚ → Coordinate ℚ → ℚ := fun _ _ => 0

/-- Three spots: ids 1 and 3 allow overnight, id 2 does not; reviews give
spot 1 average 3, spot 3 average 5, spot 2 no reviews. -/
def c4spots : List (RankSpot ℚ) :=
  [mkRank 1 "A" "forest_road" true,
   mkRank 2 "M" "forest_road" false,
   mkRank 3 "Z" "forest_road" true]

/-- Reviews for the spots above. -/
def c4reviews : List ReviewRow :=
  [⟨1, some 1, some 3, "ok", none, ""⟩,
   ⟨2, some 3, some 5, "great", none, ""⟩]

/-- Overnight-only filtering, no category filter, no favorites filter. -/
def c4filters : Filters := ⟨"any", true, false⟩

/-- Three staged photo files. -/
def c1files : List JsFile := [⟨"a.jpg"⟩, ⟨"b.png"⟩, ⟨"c.jpg"⟩]

/-- A create session ready to submit: location picked, name filled, two
manual photo URLs typed in, three files staged. -/
def c1state : AppState where
  spots := []
  adding := true
  editingSpotId := none
  pendingLocation := some ⟨1, 2⟩
  spotForm :=
    { initialSpotForm with name := "Camp", photoUrls := "http://x, http://y" }
  spotPhotoFiles := c1files
  uploadingPhotos := false
  savingSpot := false
  selectedSpotId := none
  errorMsg := ""
  status := ""

/-- The record the store returns for a successful write. -/
def c9saved : RankSpot ℚ := mkRank 7 "Camp" "forest_road" true

/-- A store whose first upload succeeds and whose second upload fails. -/
def c1oracle : StoreOracle where
  upload := fun i => if i = 0 then .ok (some "p0") else .err "network down"
  publicUrl := fun p => "https://cdn/" ++ p
  writeRes := .ok c9saved

/-- The same session with no staged files (submission succeeds). -/
def c9state : AppState := { c1state with spotPhotoFiles := [] }

/-- A store whose uploads all succeed and whose write succeeds. -/
def c9oracle : StoreOracle where
  upload := fun _ => .ok (some "q")
  publicUrl := fun p => "https://cdn/" ++ p
  writeRes := .ok c9saved

/-- A store that is never reached (rejections happen before any call). -/
def noopOracle : StoreOracle where
  upload := fun _ => .ok none
  publicUrl := fun _ => ""
  writeRes := .error "unreachable"

/-- A session that has never had a location set. -/
def c2stateNoLoc : AppState := { c1state with pendingLocation := none }

/-- A session whose name is blank after trimming. -/
def c2stateBlankName : AppState :=
  { c1state with spotForm := { initialSpotForm with name := "   " } }

/-- A legacy create session ready to submit. -/
def cLegState : LegacyState where
  spots := []
  adding := true
  pendingLocation := some ⟨1, 2⟩
  spotForm := { initialSpotForm with name := "L" }
  selectedSpotId := none
  errorMsg := ""
  savingSpot := false

/-- The targeted spot for a review. -/
def c5spot : RankSpot ℚ := mkRank 7 "S" "other" true

/-- A review form whose rating field parses to `0` (outside 1-5). -/
def c5form : ReviewForm where
  rating := "0"
  comment := "nice place"
  nickname := ""

/-- Review-session state holding that form. -/
def c5state : ReviewState := ⟨[], c5form, "", false⟩

/-- The row the store returns for a successful review insert. -/
def c5row : ReviewRow := ⟨10, some 7, some 1, "nice place", none, ""⟩

/-- A raw record whose `cell_signal` is the out-of-range number `99` and
whose `safety_rating` is the non-numeric string `"high"`. -/
def c6raw : RawSpot where
  id := 1
  name := "s"
  description := ""
  lat := 0
  lng := 0
  overnight_allowed := false
  has_bathroom := false
  cell_signal := .num 99
  noise_level := "quiet"
  safety_rating := .str "high"
  spot_type := "other"
  created_at := ""
  photo_urls := .null

/-- Enriched spots exercising the comparator keys: a favorite and a
non-favorite. -/
def eFav : EnrichedSpot ℚ := ⟨mkRank 1 "A" "x" true, none, 0, none⟩

/-- Non-favorite partner of `eFav`. -/
def eNoFav : EnrichedSpot ℚ := ⟨mkRank 2 "B" "x" true, none, 0, none⟩

/-- Known distance 1, average 4. -/
def eNear : EnrichedSpot ℚ := ⟨mkRank 3 "C" "x" true, some 4, 1, some 1⟩

/-- Known distance 2, average 5. -/
def eFar : EnrichedSpot ℚ := ⟨mkRank 4 "D" "x" true, some 5, 1, some 2⟩

/-- Unknown distance, average 9/2. -/
def eHi : EnrichedSpot ℚ :=
  ⟨mkRank 5 "E" "x" true, some (Rat.divInt 9 2), 2, none⟩

/-- Known distance, average 3 (distance key skipped against `eHi`). -/
def eLo : EnrichedSpot ℚ := ⟨mkRank 6 "F" "x" true, some 3, 1, some 1⟩

/-- No aggregates: name "Alpha". -/
def eNmA : EnrichedSpot ℚ := ⟨mkRank 7 "Alpha" "x" true, none, 0, none⟩

/-- No aggregates: name "Beta". -/
def eNmB : EnrichedSpot ℚ := ⟨mkRank 8 "Beta" "x" true, none, 0, none⟩

/-- The submit-ready session with the safety-rating form field set to
`"0"` (current path). -/
def c8stateMain : AppState :=
  { c9state with spotForm := { c9state.spotForm with safetyRating := "0" } }

/-- The submit-ready legacy session with the safety-rating form field set
to `"0"`. -/
def c8stateLegacy : LegacyState :=
  { cLegState with spotForm := { cLegState.spotForm with safetyRating := "0" } }

/-- Review-session state whose comment is blank after trimming. -/
def c5stateNoComment : ReviewState := ⟨[], ⟨"5", "   ", ""⟩, "", false⟩

/-! ## Theorems -/

/-- C1: staging three photo files where the second upload fails: the
uploads are attempted one at a time in staging order and stop at the
failure; no record write is issued and the spot table is unchanged (so no
URL returned by the first upload is referenced by any persisted record);
the composed field values, pending location and staged files are intact
and the upload error is surfaced — but the submission-in-flight flag
`savingSpot` is left `true` (the session is left flagged as submitting,
not in a retryable failed state: the early `return` skips the
`setSavingSpot(false)` that every other failure path runs). -/
theorem c1_upload_failure_run :
    (handleSaveSpot c1state c1oracle).2.uploads = ["a.jpg", "b.png"] ∧
    (handleSaveSpot c1state c1oracle).2.writes = [] ∧
    (handleSaveSpot c1state c1oracle).1.spots = c1state.spots ∧
    (handleSaveSpot c1state c1oracle).1.spotForm = c1state.spotForm ∧
    (handleSaveSpot c1state c1oracle).1.pendingLocation =
      c1state.pendingLocation ∧
    (handleSaveSpot c1state c1oracle).1.spotPhotoFiles =
      c1state.spotPhotoFiles ∧
    (handleSaveSpot c1state c1oracle).1.errorMsg =
      "Failed to upload one of the photos: network down" ∧
    (handleSaveSpot c1state c1oracle).1.savingSpot = true := by
  decide

/-- C4 (counterexample): with three spots (the middle one filtered out by
the overnight toggle), no viewer location and partially-unknown averages,
the rendered list (`filteredSpots`, which sorts first and filters last)
orders the survivors `[1, 3]`, while the claim's filter-first pipeline
orders them `[3, 1]`: the two pipelines disagree. -/
theorem c4_counterexample :
    (filteredSpots c4spots c4reviews none [] qDist c4filters).map
        (fun e => e.spot.id) = [1, 3] ∧
    (filterFirstPipeline c4spots c4reviews none [] qDist c4filters).map
        (fun e => e.spot.id) = [3, 1] ∧
    filteredSpots c4spots c4reviews none [] qDist c4filters ≠
      filterFirstPipeline c4spots c4reviews none [] qDist c4filters := by
  decide

/-- C5 (counterexample): with a spot targeted, a non-empty comment and a
rating field parsing to `0` (outside 1-5), review submission is not
rejected: no local error is surfaced and an insert is issued, carrying the
clamped rating `1`. -/
theorem c5_counterexample :
    parseIntOrZero c5form.rating = 0 ∧
    (handleAddReview (some c5spot) c5state (.ok c5row)).1.reviewError = "" ∧
    (handleAddReview (some c5spot) c5state (.ok c5row)).2 =
      [⟨7, 1, "nice place", none⟩] := by
  decide

/-- C6 (counterexample): the normalizer leaves an out-of-range
`cell_signal` of `99` and a non-numeric `safety_rating` of `"high"`
untouched — the normalized record does not carry in-range values for
these fields. -/
theorem c6_counterexample :
    (normalizeSpot c6raw).cell_signal = .num 99 ∧
    (normalizeSpot c6raw).safety_rating = .str "high" ∧
    ¬((99 : Int) ≤ 5) :=
  ⟨rfl, rfl, by decide⟩

/-- C8: the two submission paths clamp the parsed safety rating to
different bounds — on the form value `"0"` the current path persists `1`
(clamp into 1-5) while the legacy path persists `0` (clamp into 0-5). -/
theorem c8_clamp_bounds_differ :
    (handleSaveSpot c8stateMain c9oracle).2.writes.map
        (fun w => w.2.safety_rating) = [1] ∧
    (handleSaveSpotLegacy c8stateLegacy (.ok c9saved)).2.map
        (fun p => p.safety_rating) = [0] ∧
    safetyRatingMain "0" = 1 ∧
    safetyRatingLegacy "0" = 0 ∧
    safetyRatingMain "0" ≠ safetyRatingLegacy "0" := by
  decide

/-- C9 (counterexample): a successful create submission (write issued,
store record inserted into the table) leaves `selectedSpotId` unchanged
(`none`): the newly affected spot does not become the selected spot in the
current code path. -/
theorem c9_counterexample :
    (handleSaveSpot c9state c9oracle).2.writes.length = 1 ∧
    (handleSaveSpot c9state c9oracle).1.spots = [c9saved] ∧
    (handleSaveSpot c9state c9oracle).1.selectedSpotId =
      c9state.selectedSpotId ∧
    (handleSaveSpot c9state c9oracle).1.selectedSpotId ≠ some c9saved.id := by
  decide

/-- C7 (counterexample): the string `"[1,2]"` parses as a JSON array that
is not an array of strings, so the claim's rules demand the comma-split
result `["[1", "2]"]`; the code instead uses the parsed array `[1, 2]`
(numbers), which differs. -/
theorem c7_counterexample :
    jsonParse "[1,2]" = some (.arr [.num 1, .num 2]) ∧
    normalizePhotoUrls (.str "[1,2]") = .arr [.num 1, .num 2] ∧
    csvSplit "[1,2]" = ["[1", "2]"] ∧
    JSVal.arr [.num 1, .num 2] ≠ .arr [.str "[1", .str "2]"] := by
  refine ⟨rfl, rfl, rfl, ?_⟩
  intro h
  simp at h

/-- C2: submitting with no location ever set, or with a name blank after
trimming, is rejected locally: only the error message changes and the
effect trace is empty (no upload, no insert, no update). -/
theorem c2_local_validation (st : AppState) (o : StoreOracle) :
    (st.pendingLocation = none →
      handleSaveSpot st o =
        ({ st with errorMsg := "Tap on the map to choose a location." },
         ⟨[], []⟩)) ∧
    (∀ loc, st.pendingLocation = some loc → jsTrim st.spotForm.name = "" →
      handleSaveSpot st o =
        ({ st with errorMsg := "Please give this spot a name." },
         ⟨[], []⟩)) := by
  obtain ⟨sp, ad, ed, pl, fm, ph, up, sv, sel, em, stt⟩ := st
  constructor
  · intro h
    subst h
    rfl
  · intro loc h hname
    subst h
    simp [handleSaveSpot, hname]

/-- C2 (witness): the two rejections evaluated on concrete sessions. -/
theorem c2_witness :
    handleSaveSpot c2stateNoLoc noopOracle =
      ({ c2stateNoLoc with
          errorMsg := "Tap on the map to choose a location." },
       ⟨[], []⟩) ∧
    handleSaveSpot c2stateBlankName noopOracle =
      ({ c2stateBlankName with
          errorMsg := "Please give this spot a name." },
       ⟨[], []⟩) :=
  ⟨(c2_local_validation c2stateNoLoc noopOracle).1 rfl,
   (c2_local_validation c2stateBlankName noopOracle).2 ⟨1, 2⟩ rfl (by decide)⟩

/-- C4 (amended): the rendered list equals the enrich-all, sort, then
filter pipeline (filter applied last, as the conjunction of the active
predicates); membership is exactly sorted-enriched membership plus the
predicate. -/
theorem c4_amended {α : Type} [LinearOrder α] (spots : List (RankSpot α))
    (reviews : List ReviewRow) (userLocation : Option (Coordinate α))
    (favs : List Nat) (dist : Coordinate α → Coordinate α → α)
    (f : Filters) :
    filteredSpots spots reviews userLocation favs dist f =
      (stableSort (leSpots favs)
        (spots.map (enrichSpot reviews userLocation dist))).filter
        (passesFilters f favs) ∧
    (∀ e, e ∈ filteredSpots spots reviews userLocation favs dist f ↔
      e ∈ spotsWithStats spots reviews userLocation favs dist ∧
        passesFilters f favs e = true) := by
  refine ⟨rfl, ?_⟩
  intro e
  simp [filteredSpots, List.mem_filter]

/-- C4 (witness): the amended pipeline equation evaluated on the concrete
fixture. -/
theorem c4_witness :
    filteredSpots c4spots c4reviews none [] qDist c4filters =
      (stableSort (leSpots [])
        (c4spots.map (enrichSpot c4reviews none qDist))).filter
        (passesFilters c4filters []) :=
  (c4_amended c4spots c4reviews none [] qDist c4filters).1

/-- C6 (amended): load-time normalization recomputes only the
photo-references field; cell-signal and safety-rating (and the identity
and coordinates) pass through unchanged. -/
theorem c6_amended (raw : RawSpot) :
    (normalizeSpot raw).cell_signal = raw.cell_signal ∧
    (normalizeSpot raw).safety_rating = raw.safety_rating ∧
    (normalizeSpot raw).photo_urls = normalizePhotoUrls raw.photo_urls ∧
    (normalizeSpot raw).id = raw.id ∧
    (normalizeSpot raw).name = raw.name ∧
    (normalizeSpot raw).lat = raw.lat ∧
    (normalizeSpot raw).lng = raw.lng :=
  ⟨rfl, rfl, rfl, rfl, rfl, rfl, rfl⟩

/-- C6 (witness): the pass-through evaluated on the concrete raw record
with out-of-range and non-numeric fields. -/
theorem c6_witness :
    (normalizeSpot c6raw).cell_signal = c6raw.cell_signal ∧
    (normalizeSpot c6raw).safety_rating = c6raw.safety_rating :=
  ⟨(c6_amended c6raw).1, (c6_amended c6raw).2.1⟩

/-- The clamp into 1-5 used for review ratings is always at least 1 and at
most 5 (so the falsiness guard on it can never fire). -/
theorem clamp_one_five_bounds (n : Int) :
    1 ≤ clamp (some n) 1 5 ∧ clamp (some n) 1 5 ≤ 5 := by
  simp [clamp]

/-- C5 (amended): review submission rejects locally (empty effect trace)
exactly when no spot is targeted or the comment is blank after trimming;
with a spot targeted and a non-blank comment the insert is always issued,
carrying the parsed rating clamped into 1-5 — an out-of-range rating is
clamped, never rejected. -/
theorem c5_amended (sel : Option (RankSpot ℚ)) (st : ReviewState)
    (o : Except String ReviewRow) :
    (sel = none →
      handleAddReview sel st o =
        ({ st with reviewError := "Select a spot first." }, [])) ∧
    (∀ spot, sel = some spot → jsTrim st.reviewForm.comment = "" →
      handleAddReview sel st o =
        ({ st with reviewError := "Please add a short comment." }, [])) ∧
    (∀ spot, sel = some spot → jsTrim st.reviewForm.comment ≠ "" →
      (handleAddReview sel st o).2 =
        [⟨spot.id,
          clamp (some (parseIntOrZero st.reviewForm.rating)) 1 5,
          jsTrim st.reviewForm.comment,
          if jsTrim st.reviewForm.nickname ≠ "" then
            some (jsTrim st.reviewForm.nickname)
          else none⟩]) ∧
    (∀ s, 1 ≤ clamp (some (parseIntOrZero s)) 1 5 ∧
      clamp (some (parseIntOrZero s)) 1 5 ≤ 5) := by
  obtain ⟨rv, fm, re, sv⟩ := st
  refine ⟨?_, ?_, ?_, fun s => clamp_one_five_bounds (parseIntOrZero s)⟩
  · intro h
    subst h
    rfl
  · intro spot h hc
    subst h
    have h0 : clamp (some (parseIntOrZero fm.rating)) 1 5 ≠ 0 := by
      have := (clamp_one_five_bounds (parseIntOrZero fm.rating)).1
      omega
    simp [handleAddReview, hc, h0]
  · intro spot h hc
    subst h
    have h0 : clamp (some (parseIntOrZero fm.rating)) 1 5 ≠ 0 := by
      have := (clamp_one_five_bounds (parseIntOrZero fm.rating)).1
      omega
    cases o <;> simp [handleAddReview, hc, h0]

/-- C5 (witness): the amended behaviour evaluated on concrete inputs: no
spot targeted, blank comment, and the rating-0 form that is clamped and
inserted rather than rejected. -/
theorem c5_witness :
    handleAddReview none c5state (.ok c5row) =
      ({ c5state with reviewError := "Select a spot first." }, []) ∧
    handleAddReview (some c5spot) c5stateNoComment (.ok c5row) =
      ({ c5stateNoComment with
          reviewError := "Please add a short comment." }, []) ∧
    (handleAddReview (some c5spot) c5state (.ok c5row)).2 =
      [⟨c5spot.id, clamp (some (parseIntOrZero c5state.reviewForm.rating)) 1 5,
        jsTrim c5state.reviewForm.comment,
        if jsTrim c5state.reviewForm.nickname ≠ "" then
          some (jsTrim c5state.reviewForm.nickname)
        else none⟩] :=
  ⟨(c5_amended none c5state (.ok c5row)).1 rfl,
   (c5_amended (some c5spot) c5stateNoComment (.ok c5row)).2.1 c5spot rfl
     (by decide),
   (c5_amended (some c5spot) c5state (.ok c5row)).2.2.1 c5spot rfl
     (by decide)⟩

/-- A string with a non-empty trim is itself non-empty and has positive
trimmed length. -/
theorem jsTrim_length_pos {s : String} (h : jsTrim s ≠ "") :
    0 < (jsTrim s).length := by
  rcases Nat.eq_zero_or_pos (jsTrim s).length with h0 | h0
  · exact absurd (String.ext (List.length_eq_zero.mp h0)) h
  · exact h0

/-- C7 (amended): the photo-references normalization rules, first match
wins: falsy (absent/null/empty) yields `[]`; an array is used as-is; a
non-blank string parsing as a JSON array (of any element types) yields the
parsed array; any other non-blank string is comma-split, trimmed and
cleaned of empty segments.  The claim's concrete examples evaluate as
stated. -/
theorem c7_photo_rules (v : JSVal) :
    (jsFalsy v = true → normalizePhotoUrls v = .arr []) ∧
    (∀ xs, v = .arr xs → normalizePhotoUrls v = .arr xs) ∧
    (∀ s, v = .str s → jsTrim s ≠ "" →
      ∀ xs, jsonParse s = some (.arr xs) → normalizePhotoUrls v = .arr xs) ∧
    (∀ s, v = .str s → jsTrim s ≠ "" →
      (∀ xs, jsonParse s ≠ some (.arr xs)) →
      normalizePhotoUrls v = .arr ((csvSplit s).map JSVal.str)) ∧
    normalizePhotoUrls (.str "http://a, http://b") =
      .arr [.str "http://a", .str "http://b"] ∧
    normalizePhotoUrls (.str "[\"x\",\"y\"]") = .arr [.str "x", .str "y"] ∧
    normalizePhotoUrls .null = .arr [] ∧
    normalizePhotoUrls (.str "") = .arr [] := by
  refine ⟨?_, ?_, ?_, ?_, rfl, rfl, rfl, rfl⟩
  · intro h
    simp [normalizePhotoUrls, h]
  · intro xs h
    subst h
    simp [normalizePhotoUrls, jsFalsy]
  · intro s h htrim xs hp
    subst h
    have hs : s ≠ "" := fun e => htrim (by rw [e]; rfl)
    have hsb : (s == "") = false := by simp [hs]
    have hlen : 0 < (jsTrim s).length := jsTrim_length_pos htrim
    simp [normalizePhotoUrls, jsFalsy, hsb, hlen, hp]
  · intro s h htrim hnot
    subst h
    have hs : s ≠ "" := fun e => htrim (by rw [e]; rfl)
    have hsb : (s == "") = false := by simp [hs]
    have hlen : 0 < (jsTrim s).length := jsTrim_length_pos htrim
    rcases hp : jsonParse s with _ | val
    · simp [normalizePhotoUrls, jsFalsy, hsb, hlen, hp]
    · cases val
      case arr xs => exact absurd hp (hnot xs)
      all_goals simp [normalizePhotoUrls, jsFalsy, hsb, hlen, hp]

/-- C7 (witness): the amended rules evaluated on concrete inputs: a JSON
array string, a plain comma string (whose JSON parse fails), and `null`. -/
theorem c7_witness :
    normalizePhotoUrls (.str "[\"a\"]") = .arr [.str "a"] ∧
    normalizePhotoUrls (.str "u ,v") = .arr [.str "u", .str "v"] ∧
    normalizePhotoUrls .null = .arr [] :=
  ⟨(c7_photo_rules (.str "[\"a\"]")).2.2.1 "[\"a\"]" rfl (by decide)
      [.str "a"] rfl,
   (c7_photo_rules (.str "u ,v")).2.2.2.1 "u ,v" rfl (by decide)
      (by intro xs hx
          have hn : jsonParse "u ,v" = none := rfl
          rw [hn] at hx
          exact Option.noConfusion hx),
   (c7_photo_rules .null).1 rfl⟩

/-- When either distance is unknown, or both are known and equal, the
distance key decides nothing and the comparator falls to the rating key. -/
theorem compareByDistance_skip {α : Type} [LinearOrder α]
    {a b : EnrichedSpot α}
    (h : a.distanceKm = none ∨ b.distanceKm = none ∨
      a.distanceKm = b.distanceKm) :
    compareByDistance a b = compareByRating a b := by
  rcases hda : a.distanceKm with _ | da <;>
    rcases hdb : b.distanceKm with _ | db <;>
      simp [compareByDistance, hda, hdb]
  rcases h with h | h | h
  · rw [hda] at h
    cases h
  · rw [hdb] at h
    cases h
  · rw [hda, hdb] at h
    injection h with h
    simp [h]

/-- Both distances known and the first smaller: the first sorts first. -/
theorem compareByDistance_lt {α : Type} [LinearOrder α]
    {a b : EnrichedSpot α} {da db : α}
    (hda : a.distanceKm = some da) (hdb : b.distanceKm = some db)
    (h : da < db) :
    compareByDistance a b = .lt := by
  simp [compareByDistance, hda, hdb, h, h.ne]

/-- Both distances known and the second smaller: the first sorts last. -/
theorem compareByDistance_gt {α : Type} [LinearOrder α]
    {a b : EnrichedSpot α} {da db : α}
    (hda : a.distanceKm = some da) (hdb : b.distanceKm = some db)
    (h : db < da) :
    compareByDistance a b = .gt := by
  simp [compareByDistance, hda, hdb, h.ne', h.asymm]

/-- When either average is unknown, or both are known and equal, the
rating key decides nothing and the comparator falls to the name key. -/
theorem compareByRating_skip {α : Type} {a b : EnrichedSpot α}
    (h : a.avgRating = none ∨ b.avgRating = none ∨
      a.avgRating = b.avgRating) :
    compareByRating a b = compareByName a b := by
  rcases hra : a.avgRating with _ | ra <;>
    rcases hrb : b.avgRating with _ | rb <;>
      simp [compareByRating, hra, hrb]
  rcases h with h | h | h
  · rw [hra] at h
    cases h
  · rw [hrb] at h
    cases h
  · rw [hra, hrb] at h
    injection h with h
    simp [h]

/-- Both averages known and the first higher: the first sorts first. -/
theorem compareByRating_lt {α : Type} {a b : EnrichedSpot α} {ra rb : ℚ}
    (hra : a.avgRating = some ra) (hrb : b.avgRating = some rb)
    (h : rb < ra) :
    compareByRating a b = .lt := by
  simp [compareByRating, hra, hrb, h, h.ne]

/-- Both averages known and the second higher: the first sorts last. -/
theorem compareByRating_gt {α : Type} {a b : EnrichedSpot α} {ra rb : ℚ}
    (hra : a.avgRating = some ra) (hrb : b.avgRating = some rb)
    (h : ra < rb) :
    compareByRating a b = .gt := by
  simp [compareByRating, hra, hrb, h.ne', h.asymm]

/-- Equal favorite status: the comparator is decided by the distance key
chain. -/
theorem compareSpots_eq_of_fav {α : Type} [LinearOrder α]
    {favs : List Nat} {a b : EnrichedSpot α}
    (h : favs.contains a.spot.id = favs.contains b.spot.id) :
    compareSpots favs a b = compareByDistance a b := by
  show (if favs.contains a.spot.id ≠ favs.contains b.spot.id then
      (if favs.contains a.spot.id then Ordering.lt else Ordering.gt)
    else compareByDistance a b) = compareByDistance a b
  rw [if_neg (fun hc => hc h)]

/-- C3: the comparator orders two enriched spots by the fixed key
sequence — favorites first; then, when both distances are known and
differ, smaller distance first; then, when both averages are known and
differ, higher average first; then name comparison — and whenever a
distance or average is missing (or the two values tie), that key is
skipped and the comparator falls through to the next key. -/
theorem c3_comparator_keys {α : Type} [LinearOrder α] (favs : List Nat)
    (a b : EnrichedSpot α) :
    (favs.contains a.spot.id = true → favs.contains b.spot.id = false →
      compareSpots favs a b = .lt) ∧
    (favs.contains a.spot.id = false → favs.contains b.spot.id = true →
      compareSpots favs a b = .gt) ∧
    (favs.contains a.spot.id = favs.contains b.spot.id →
      ∀ da db, a.distanceKm = some da → b.distanceKm = some db →
        (da < db → compareSpots favs a b = .lt) ∧
        (db < da → compareSpots favs a b = .gt)) ∧
    (favs.contains a.spot.id = favs.contains b.spot.id →
      (a.distanceKm = none ∨ b.distanceKm = none ∨
        a.distanceKm = b.distanceKm) →
      ∀ ra rb, a.avgRating = some ra → b.avgRating = some rb →
        (rb < ra → compareSpots favs a b = .lt) ∧
        (ra < rb → compareSpots favs a b = .gt)) ∧
    (favs.contains a.spot.id = favs.contains b.spot.id →
      (a.distanceKm = none ∨ b.distanceKm = none ∨
        a.distanceKm = b.distanceKm) →
      (a.avgRating = none ∨ b.avgRating = none ∨
        a.avgRating = b.avgRating) →
      compareSpots favs a b = compare a.spot.name b.spot.name) := by
  refine ⟨?_, ?_, ?_, ?_, ?_⟩
  · intro h1 h2
    show (if favs.contains a.spot.id ≠ favs.contains b.spot.id then
        (if favs.contains a.spot.id then Ordering.lt else Ordering.gt)
      else compareByDistance a b) = Ordering.lt
    rw [h1, h2]
    rfl
  · intro h1 h2
    show (if favs.contains a.spot.id ≠ favs.contains b.spot.id then
        (if favs.contains a.spot.id then Ordering.lt else Ordering.gt)
      else compareByDistance a b) = Ordering.gt
    rw [h1, h2]
    rfl
  · intro h da db hda hdb
    refine ⟨fun hlt => ?_, fun hgt => ?_⟩
    · rw [compareSpots_eq_of_fav h]
      exact compareByDistance_lt hda hdb hlt
    · rw [compareSpots_eq_of_fav h]
      exact compareByDistance_gt hda hdb hgt
  · intro h hskip ra rb hra hrb
    refine ⟨fun hlt => ?_, fun hgt => ?_⟩
    · rw [compareSpots_eq_of_fav h, compareByDistance_skip hskip]
      exact compareByRating_lt hra hrb hlt
    · rw [compareSpots_eq_of_fav h, compareByDistance_skip hskip]
      exact compareByRating_gt hra hrb hgt
  · intro h hd hr
    rw [compareSpots_eq_of_fav h, compareByDistance_skip hd,
      compareByRating_skip hr]
    rfl

/-- C3 (witness): each key of the comparator exercised on concrete
enriched spots. -/
theorem c3_witness :
    compareSpots [1] eFav eNoFav = .lt ∧
    compareSpots [] eNear eFar = .lt ∧
    compareSpots [] eFar eNear = .gt ∧
    compareSpots [] eHi eLo = .lt ∧
    compareSpots [] eNmA eNmB = compare eNmA.spot.name eNmB.spot.name :=
  ⟨(c3_comparator_keys [1] eFav eNoFav).1 (by decide) (by decide),
   ((c3_comparator_keys [] eNear eFar).2.2.1 (by decide) 1 2 rfl rfl).1
     (by decide),
   ((c3_comparator_keys [] eFar eNear).2.2.1 (by decide) 2 1 rfl rfl).2
     (by decide),
   ((c3_comparator_keys [] eHi eLo).2.2.2.1 (by decide) (Or.inl rfl)
       (Rat.divInt 9 2) 3 rfl rfl).1 (by decide),
   (c3_comparator_keys [] eNmA eNmB).2.2.2.2 (by decide) (Or.inl rfl)
     (Or.inl rfl)⟩

/-- C9 (amended): on a successful submission in the current path (location
set, name non-blank, every upload succeeded, write succeeded), the table
entry matching the returned id is replaced in place, otherwise the record
is inserted at the head; the composing fields are cleared; exactly one
write was issued; and the selected spot is left unchanged.  The legacy
create path additionally appends the record and makes it the selected
spot. -/
theorem c9_success_writeback (st : AppState) (o : StoreOracle)
    (loc : Coordinate ℚ) (urls trace : List String) (saved : RankSpot ℚ)
    (h1 : st.pendingLocation = some loc)
    (h2 : jsTrim st.spotForm.name ≠ "")
    (h3 : uploadPhase o 0 [] [] st.spotPhotoFiles = .ok (urls, trace))
    (h4 : o.writeRes = .ok saved) :
    ((handleSaveSpot st o).1.spots =
      match st.spots.findIdx? (fun s => s.id == saved.id) with
      | none => saved :: st.spots
      | some idx => st.spots.set idx saved) ∧
    (handleSaveSpot st o).1.spotForm = initialSpotForm ∧
    (handleSaveSpot st o).1.pendingLocation = none ∧
    (handleSaveSpot st o).1.spotPhotoFiles = [] ∧
    (handleSaveSpot st o).1.adding = false ∧
    (handleSaveSpot st o).1.editingSpotId = none ∧
    (handleSaveSpot st o).1.selectedSpotId = st.selectedSpotId ∧
    (handleSaveSpot st o).2.writes.length = 1 ∧
    (∀ (lst : LegacyState) (lloc : Coordinate ℚ) (lsaved : RankSpot ℚ),
      lst.adding = true → lst.pendingLocation = some lloc →
      jsTrim lst.spotForm.name ≠ "" →
      (handleSaveSpotLegacy lst (.ok lsaved)).1.spots =
          lst.spots ++ [lsaved] ∧
        (handleSaveSpotLegacy lst (.ok lsaved)).1.selectedSpotId =
          some lsaved.id ∧
        (handleSaveSpotLegacy lst (.ok lsaved)).1.spotForm =
          initialSpotForm) := by
  obtain ⟨sp, ad, ed, pl, fm, ph, up, sv, sel, em, stt⟩ := st
  subst h1
  simp only at h3
  constructor
  · simp only [handleSaveSpot, h2, h3, h4]
    rfl
  refine ⟨?_, ?_, ?_, ?_, ?_, ?_, ?_, ?_⟩
  · simp [handleSaveSpot, h2, h3, h4]
  · simp [handleSaveSpot, h2, h3, h4]
  · simp [handleSaveSpot, h2, h3, h4]
  · simp [handleSaveSpot, h2, h3, h4]
  · simp [handleSaveSpot, h2, h3, h4]
  · simp [handleSaveSpot, h2, h3, h4]
  · simp [handleSaveSpot, h2, h3, h4]
  · intro lst lloc lsaved hl1 hl2 hl3
    obtain ⟨lsp, lad, lpl, lfm, lsel, lem, lsv⟩ := lst
    subst hl2
    simp only at hl1
    subst hl1
    refine ⟨?_, ?_, ?_⟩ <;> simp [handleSaveSpotLegacy, hl3]

/-- C9 (witness): the amended write-back behaviour evaluated on the
concrete successful create submission and legacy submission. -/
theorem c9_witness :
    (handleSaveSpot c9state c9oracle).1.spots =
      (match c9state.spots.findIdx? (fun s => s.id == c9saved.id) with
       | none => c9saved :: c9state.spots
       | some idx => c9state.spots.set idx c9saved) ∧
    (handleSaveSpot c9state c9oracle).1.selectedSpotId =
      c9state.selectedSpotId ∧
    (handleSaveSpotLegacy cLegState (.ok c9saved)).1.selectedSpotId =
      some c9saved.id :=
  ⟨(c9_success_writeback c9state c9oracle ⟨1, 2⟩ [] [] c9saved rfl
      (by decide) rfl rfl).1,
   (c9_success_writeback c9state c9oracle ⟨1, 2⟩ [] [] c9saved rfl
      (by decide) rfl rfl).2.2.2.2.2.2.1,
   ((c9_success_writeback c9state c9oracle ⟨1, 2⟩ [] [] c9saved rfl
      (by decide) rfl rfl).2.2.2.2.2.2.2.2 cLegState ⟨1, 2⟩ c9saved rfl rfl
      (by decide)).2.1⟩

/-- The haversine term vanishes on coincident points. -/
theorem havTerm_self (p : Coordinate ℝ) : havTerm p p = 0 := by
  simp [havTerm]

/-- The haversine term is symmetric in its two points. -/
theorem havTerm_comm (a b : Coordinate ℝ) : havTerm a b = havTerm b a := by
  have k : ∀ u v : ℝ,
      Real.sin ((u - v) * Real.pi / 180 / 2) *
        Real.sin ((u - v) * Real.pi / 180 / 2) =
      Real.sin ((v - u) * Real.pi / 180 / 2) *
        Real.sin ((v - u) * Real.pi / 180 / 2) := by
    intro u v
    have h : (u - v) * Real.pi / 180 / 2 =
        -((v - u) * Real.pi / 180 / 2) := by ring
    rw [h, Real.sin_neg]
    ring
  unfold havTerm
  rw [k b.lat a.lat, k b.lng a.lng]
  ring

/-- The distance between coincident points is zero. -/
theorem haversineKm_self (p : Coordinate ℝ) : haversineKm p p = 0 := by
  unfold haversineKm
  rw [havTerm_self]
  rw [Real.sqrt_zero, sub_zero, Real.sqrt_one]
  unfold jsAtan2
  rw [if_pos one_pos, zero_div, Real.arctan_zero]
  ring

/-- The distance function is symmetric. -/
theorem haversineKm_comm (a b : Coordinate ℝ) :
    haversineKm a b = haversineKm b a := by
  unfold haversineKm
  rw [havTerm_comm]

/-- C10: the geodesic distance of a point to itself is zero; the distance
is symmetric; and the result is the absent sentinel exactly when either
input is absent. -/
theorem c10_haversine (p : Coordinate ℝ) (a b : Option (Coordinate ℝ)) :
    haversineDistanceKm (some p) (some p) = some 0 ∧
    haversineDistanceKm a b = haversineDistanceKm b a ∧
    (haversineDistanceKm a b = none ↔ a = none ∨ b = none) := by
  refine ⟨?_, ?_, ?_⟩
  · simp [haversineDistanceKm, haversineKm_self]
  · cases a <;> cases b <;> simp [haversineDistanceKm, haversineKm_comm]
  · cases a <;> cases b <;> simp [haversineDistanceKm]
